import Mathlib

/-!
Formal model of the voice-cloning backend.

Shallow embedding of the audio-processing utilities (audio_utils.py),
the voice-model registry (voice_cloner.py) and the synthesis
orchestration (tts_engine.py).  Strings are modelled as lists of
Unicode code points, waveforms as lists of real numbers (the float
arrays of the code, with exact real arithmetic), the filesystem as a
partial map from paths to waveform contents, and the opaque
third-party synthesis model as an arbitrary function parameter.
-/

namespace VoiceClone

/-- Strings are lists of Unicode code points. -/
abbrev Str := List Nat

/-- Waveforms: lists of real samples. -/
abbrev Wave := List ℝ

/-- Code points of the literal ".wav". -/
def wavCodes : Str := [46, 119, 97, 118]

/-- Code points of the literal "_processed.wav". -/
def processedWavCodes : Str := [95, 112, 114, 111, 99, 101, 115, 115, 101, 100, 46, 119, 97, 118]

/-- Code points of the literal "/reference.wav". -/
def referenceWavCodes : Str := [47, 114, 101, 102, 101, 114, 101, 110, 99, 101, 46, 119, 97, 118]

/-- Code points of the literal "custom". -/
def customCodes : Str := [99, 117, 115, 116, 111, 109]

/-- Python str.replace s pat rep: replace every non-overlapping occurrence
of pat in s, scanning left to right, by rep (tts_engine.py line 157). -/
def pyReplace (s pat rep : Str) : Str :=
  match s with
  | [] => []
  | c :: cs =>
    if h : pat ≠ [] ∧ pat.isPrefixOf (c :: cs) = true then
      rep ++ pyReplace ((c :: cs).drop pat.length) pat rep
    else
      c :: pyReplace cs pat rep
termination_by s.length
decreasing_by
  · have hp : 0 < pat.length := List.length_pos.mpr h.1
    simp only [List.length_drop, List.length_cons]
    omega
  · simp

/-- Python substring test (the "in" operator): does pat occur contiguously
inside s? -/
def containsSub (s pat : Str) : Bool :=
  match s with
  | [] => pat.isEmpty
  | c :: cs => pat.isPrefixOf (c :: cs) || containsSub cs pat

theorem pyReplace_of_not_contains (s pat rep : Str)
    (h : containsSub s pat = false) : pyReplace s pat rep = s := by
  induction s with
  | nil => rw [pyReplace]
  | cons c cs ih =>
    rw [containsSub] at h
    simp only [Bool.or_eq_false_iff] at h
    rw [pyReplace]
    rw [dif_neg]
    · rw [ih h.2]
    · intro hcon
      exact absurd hcon.2 (by simp [h.1])

theorem pyReplace_ne_nil (s pat rep : Str) (hs : s ≠ []) (hrep : rep ≠ []) :
    pyReplace s pat rep ≠ [] := by
  match s with
  | [] => exact absurd rfl hs
  | c :: cs =>
    rw [pyReplace]
    split
    · simp [hrep]
    · simp

/-- Python str.lower on one code point, faithful for code points below
256 (ASCII and Latin-1): the ASCII uppercase letters and the Latin-1
uppercase letters 0xC0 to 0xDE (excluding the multiplication sign 0xD7)
map down by 32; every other code point in that range is unchanged. -/
def pyLower (c : Nat) : Nat :=
  if 65 ≤ c ∧ c ≤ 90 then c + 32
  else if 192 ≤ c ∧ c ≤ 222 ∧ c ≠ 215 then c + 32
  else c

/-- Python str.isalnum on one code point, faithful for code points below
256: ASCII digits and letters; the Latin-1 ordinal indicators 0xAA and
0xBA, micro sign 0xB5, superscript digits 0xB2 0xB3 0xB9, vulgar
fractions 0xBC to 0xBE; and the Latin-1 letters 0xC0 to 0xFF excluding
the two operator signs 0xD7 and 0xF7. -/
def pyIsAlnum (c : Nat) : Bool :=
  (48 ≤ c && c ≤ 57) || (65 ≤ c && c ≤ 90) || (97 ≤ c && c ≤ 122) ||
  (c == 170) || (c == 178) || (c == 179) || (c == 181) || (c == 185) || (c == 186) ||
  (188 ≤ c && c ≤ 190) ||
  (192 ≤ c && c ≤ 255 && c != 215 && c != 247)

/-- voice_cloner.py line 132: the sanitized name,
join(c if c.isalnum() else underscore for c in model_name.lower()).
Code point 95 is the underscore. -/
def clean_name (model_name : Str) : Str :=
  (model_name.map pyLower).map (fun c => if pyIsAlnum c then c else 95)

/-- Wall-clock instant, the fields of datetime.now() that the code reads. -/
structure DateTime where
  year : Nat
  month : Nat
  day : Nat
  hour : Nat
  minute : Nat
  second : Nat
deriving DecidableEq, Repr

/-- Code point of the decimal digit n mod 10. -/
def digitCode (n : Nat) : Nat := 48 + n % 10

/-- Two-digit zero-padded decimal (strftime field of width 2, faithful
for values below 100). -/
def pad2 (n : Nat) : Str := [digitCode (n / 10), digitCode n]

/-- Four-digit zero-padded decimal (strftime year field, faithful for
values below 10000). -/
def pad4 (n : Nat) : Str :=
  [digitCode (n / 1000), digitCode (n / 100), digitCode (n / 10), digitCode n]

/-- strftime with format YYYYMMDD_HHMMSS (voice_cloner.py line 133);
code point 95 is the underscore. -/
def formatTimestamp (t : DateTime) : Str :=
  pad4 t.year ++ pad2 t.month ++ pad2 t.day ++ [95] ++
    pad2 t.hour ++ pad2 t.minute ++ pad2 t.second

/-- voice_cloner.py lines 129 to 134, _generate_model_id: sanitized
lowercased name, underscore, timestamp. -/
def generate_model_id (model_name : Str) (now : DateTime) : Str :=
  clean_name model_name ++ [95] ++ formatTimestamp now

/-- Ranges of the fields of a real calendar datetime (what datetime.now()
can produce, with years below 10000 as in strftime). -/
def ValidDT (t : DateTime) : Prop :=
  t.year < 10000 ∧ t.month ≤ 12 ∧ t.day ≤ 31 ∧
    t.hour < 24 ∧ t.minute < 60 ∧ t.second < 60

instance (t : DateTime) : Decidable (ValidDT t) := by
  unfold ValidDT
  infer_instance

/-- Is c one of the code points the spec allows in a sanitized id prefix:
a lowercase ASCII letter, an ASCII digit, or the underscore? -/
def isIdChar (c : Nat) : Bool :=
  (97 ≤ c && c ≤ 122) || (48 ≤ c && c ≤ 57) || (c == 95)

noncomputable section

/-- np.sqrt(np.mean(audio ** 2)): root-mean-square amplitude
(audio_utils.py line 65 and line 156).  Division by the length is real
division, so the empty waveform gets rms 0. -/
def rmsOf (audio : Wave) : ℝ :=
  Real.sqrt ((audio.map (fun x => x ^ 2)).sum / audio.length)

/-- np.abs(audio).max() (audio_utils.py line 157), with 0 for the empty
waveform. -/
def peakOf (audio : Wave) : ℝ :=
  (audio.map (fun x => |x|)).foldr max 0

/-- np.mean. -/
def meanOf (l : Wave) : ℝ := l.sum / l.length

/-- np.std: population standard deviation. -/
def stdOf (l : Wave) : ℝ :=
  Real.sqrt (meanOf (l.map (fun x => (x - meanOf l) ^ 2)))

/-- The target RMS 10 ** (target_level / 20) of audio_utils.py line 71
(real exponentiation). -/
def targetRms (target_level : ℝ) : ℝ := (10 : ℝ) ^ (target_level / 20)

/-- audio_utils.py lines 53 to 81, normalize_audio: scale to the target
RMS unless the signal is all-zero; if the scaled peak exceeds 1, rescale
so the peak is 0.99. -/
def normalize_audio (audio : Wave) (target_level : ℝ) : Wave :=
  let rms := rmsOf audio
  if rms = 0 then audio
  else
    let target_rms := targetRms target_level
    let normalized := audio.map (fun x => x * (target_rms / rms))
    let max_val := peakOf normalized
    if max_val > 1 then normalized.map (fun x => x / max_val * (99 / 100))
    else normalized

/-- Identity of the four issue messages validate_audio_quality can
append (the formatted text of the Python strings is presentation and is
not modelled). -/
inductive Issue where
  | tooShort
  | lowLevel
  | clipping
  | lowSnr
deriving DecidableEq, Repr

/-- The dictionary returned by validate_audio_quality. -/
structure ValidationResult where
  is_valid : Bool
  duration : ℝ
  rms : ℝ
  peak : ℝ
  snr_db : ℝ
  issues : List Issue

/-- The SNR estimate of audio_utils.py lines 159 to 162: the std of the
first tenth of a second is the noise estimate (int(0.1 * sample_rate)
samples; exact Nat division by 10, which agrees with the code at the
configured rate 22050), and np.log10 is the real base-10 logarithm. -/
def snrOf (sr : Nat) (audio : Wave) : ℝ :=
  let noise_estimate := stdOf (audio.take (sr / 10))
  let signal_estimate := stdOf audio
  20 * Real.logb 10 (signal_estimate / (noise_estimate + 1 / 10 ^ 10))

/-- audio_utils.py lines 144 to 187, validate_audio_quality, with the
four checks applied in source order. -/
def validate_audio_quality (sr : Nat) (audio : Wave) (min_duration : ℝ) :
    ValidationResult :=
  let duration : ℝ := (audio.length : ℝ) / (sr : ℝ)
  let rms := rmsOf audio
  let peak := peakOf audio
  let snr_value := snrOf sr audio
  let v0 : ValidationResult :=
    { is_valid := true, duration := duration, rms := rms, peak := peak,
      snr_db := snr_value, issues := [] }
  let v1 := if duration < min_duration then
      { v0 with is_valid := false, issues := v0.issues ++ [Issue.tooShort] }
    else v0
  let v2 := if rms < 1 / 100 then
      { v1 with is_valid := false, issues := v1.issues ++ [Issue.lowLevel] }
    else v1
  let v3 := if peak > 99 / 100 then
      { v2 with issues := v2.issues ++ [Issue.clipping] }
    else v2
  if snr_value < 10 then { v3 with issues := v3.issues ++ [Issue.lowSnr] }
  else v3

/-- The signal-processing primitives the spec treats as external library
calls (librosa trim and STFT gate, scipy filter design): arbitrary
waveform transforms the embedding is parameterized by. -/
structure DSP where
  trim_silence : Wave → Wave
  highpass : Wave → Wave
  reduce_noise : Wave → Wave

/-- audio_utils.py lines 189 to 211, preprocess_for_tts: trim, high-pass
filter, noise gate, then loudness-normalize at the default -20 dB. -/
def preprocess_for_tts (dsp : DSP) (audio : Wave) : Wave :=
  normalize_audio (dsp.reduce_noise (dsp.highpass (dsp.trim_silence audio))) (-20)

end

/-- One entry of metadata["models"]: the VoiceModel record built in
voice_cloner.py lines 96 to 108.  The nested quality_metrics dict is
flattened into the snr_db and rms fields; fields a preset entry lacks
and the initially absent updated_at key are Options. -/
structure ModelInfo where
  id : Str
  name : Str
  description : Str
  created_at : Str
  updated_at : Option Str
  reference_audio : Option Str
  duration : Option ℝ
  snr_db : Option ℝ
  rms : Option ℝ
  model_type : Str

/-- The registry state: the in-memory metadata dict, its on-disk mirror
(models_metadata.json), and the directories and audio files the
registry has created.  The two metadata components are association
lists in insertion order, as a Python dict is. -/
structure RegState where
  memModels : List (Str × ModelInfo)
  diskModels : List (Str × ModelInfo)
  dirs : List Str
  files : List (Str × Wave)

/-- Dict lookup on an association list. -/
def lookupModel (l : List (Str × ModelInfo)) (k : Str) : Option ModelInfo :=
  match l with
  | [] => none
  | (k1, v) :: t => if k1 = k then some v else lookupModel t k

/-- Dict assignment on an association list: replace in place if the key
is present, append otherwise (Python dict semantics). -/
def insertModel (l : List (Str × ModelInfo)) (k : Str) (v : ModelInfo) :
    List (Str × ModelInfo) :=
  match l with
  | [] => [(k, v)]
  | (k1, v1) :: t => if k1 = k then (k, v) :: t else (k1, v1) :: insertModel t k v

theorem lookupModel_insertModel_self (l : List (Str × ModelInfo)) (k : Str)
    (v : ModelInfo) : lookupModel (insertModel l k v) k = some v := by
  induction l with
  | nil => simp [insertModel, lookupModel]
  | cons p t ih =>
    obtain ⟨k1, v1⟩ := p
    rw [insertModel]
    by_cases hk : k1 = k
    · rw [if_pos hk, lookupModel, if_pos rfl]
    · rw [if_neg hk, lookupModel, if_neg hk, ih]

theorem lookupModel_insertModel_ne (l : List (Str × ModelInfo)) (k j : Str)
    (v : ModelInfo) (hne : j ≠ k) :
    lookupModel (insertModel l k v) j = lookupModel l j := by
  induction l with
  | nil =>
    simp only [insertModel, lookupModel]
    rw [if_neg (fun hkj => hne hkj.symm)]
  | cons p t ih =>
    obtain ⟨k1, v1⟩ := p
    rw [insertModel]
    by_cases hk : k1 = k
    · rw [if_pos hk, lookupModel, lookupModel, if_neg (fun hkj => hne hkj.symm),
        if_neg (fun h1 => hne (hk ▸ h1).symm)]
    · rw [if_neg hk, lookupModel, lookupModel]
      by_cases hj : k1 = j
      · rw [if_pos hj, if_pos hj]
      · rw [if_neg hj, if_neg hj, ih]

/-- The failure kinds the registry reports (the error strings of the
returned dicts, modelled by identity). -/
inductive RegError where
  | validationFailed (issues : List Issue)
  | notFound
deriving DecidableEq, Repr

/-- The dict returned by create_voice_model. -/
structure CreateResult where
  success : Bool
  error : Option RegError
  model_id : Option Str
  model_info : Option ModelInfo

noncomputable section

/-- voice_cloner.py lines 52 to 127, create_voice_model.  The audio has
already been loaded (load_audio is filesystem input, modelled as the
given waveform); now is the datetime.now() instant and now_iso its
isoformat text.  On validation failure the call returns the issues and
leaves the state untouched; on success it makes the model directory,
writes the processed reference (save_audio normalizes before writing),
inserts the metadata entry and persists the metadata document. -/
def create_voice_model (sr : Nat) (dsp : DSP) (models_dir : Str)
    (st : RegState) (audio : Wave) (model_name description : Str)
    (now : DateTime) (now_iso : Str) : CreateResult × RegState :=
  let validation := validate_audio_quality sr audio 10
  if validation.is_valid then
    let processed := preprocess_for_tts dsp audio
    let model_id := generate_model_id model_name now
    let model_dir := models_dir ++ [47] ++ model_id
    let reference_path := model_dir ++ referenceWavCodes
    let info : ModelInfo :=
      { id := model_id, name := model_name, description := description,
        created_at := now_iso, updated_at := none,
        reference_audio := some reference_path,
        duration := some validation.duration,
        snr_db := some validation.snr_db, rms := some validation.rms,
        model_type := customCodes }
    let mem := insertModel st.memModels model_id info
    ({ success := true, error := none, model_id := some model_id,
       model_info := some info },
     { memModels := mem, diskModels := mem,
       dirs := st.dirs ++ [model_dir],
       files := st.files ++ [(reference_path, normalize_audio processed (-20))] })
  else
    ({ success := false,
       error := some (RegError.validationFailed validation.issues),
       model_id := none, model_info := none }, st)

/-- The dict returned by update_model_info. -/
structure UpdateResult where
  success : Bool
  error : Option RegError
  model_info : Option ModelInfo

/-- voice_cloner.py lines 192 to 230, update_model_info.  The Python
truthiness test if name fires only when name is present and nonempty,
while if description is not None fires for any present value, the empty
string included; the updated_at stamp is datetime.now().isoformat(),
passed in as now_iso, and the metadata document is rewritten. -/
def update_model_info (st : RegState) (model_id : Str)
    (name description : Option Str) (now_iso : Str) : UpdateResult × RegState :=
  match lookupModel st.memModels model_id with
  | none => ({ success := false, error := some RegError.notFound,
               model_info := none }, st)
  | some m =>
    let m1 := match name with
      | some n => if n ≠ [] then { m with name := n } else m
      | none => m
    let m2 := match description with
      | some d => { m1 with description := d }
      | none => m1
    let m3 := { m2 with updated_at := some now_iso }
    let mem := insertModel st.memModels model_id m3
    ({ success := true, error := none, model_info := some m3 },
     { st with memModels := mem, diskModels := mem })

/-- The filesystem: a partial map from paths to waveform contents. -/
def FS : Type := Str → Option Wave

/-- Record of one invocation of the opaque model (tts.tts_to_file):
the text, the speaker reference path passed (none in default-voice
mode), and the content of the speaker file at invocation time. -/
structure TTSCall where
  text : Str
  speaker : Option Str
  speaker_content : Option Wave

/-- The engine world: the filesystem plus the trace of model
invocations. -/
structure World where
  fs : FS
  calls : List TTSCall

/-- The error kinds of synthesize_speech and clone_voice. -/
inductive SynthError where
  | loadFailed
  | raised (msg : Str)
  | outputNotCreated
deriving DecidableEq, Repr

/-- The dict returned by synthesize_speech and clone_voice. -/
structure SynthResult where
  success : Bool
  error : Option SynthError
  output_path : Option Str
  file_size : Option Nat
  audio_quality : Option ValidationResult

/-- The opaque third-party model: given the call and the current
filesystem it either raises (some message) or returns normally, and
either way leaves a new filesystem. -/
def TTSModel : Type := TTSCall → FS → Option Str × FS

/-- Write a file. -/
def writeFile (fs : FS) (path : Str) (content : Wave) : FS :=
  fun p => if p = path then some content else fs p

/-- Remove a file. -/
def removeFile (fs : FS) (path : Str) : FS :=
  fun p => if p = path then none else fs p

/-- tts_engine.py lines 57 to 119, synthesize_speech: choose cloning
mode when speaker_wav is truthy and the file exists, invoke the model
(every exception is caught and reported as a failure dict), and fail
with outputNotCreated when no output file appeared. -/
def synthesize_speech (tts : TTSModel) (w : World) (text output_path : Str)
    (speaker_wav : Option Str) : SynthResult × World :=
  let call : TTSCall :=
    match speaker_wav with
    | some p =>
      if p ≠ [] ∧ (w.fs p).isSome = true then
        { text := text, speaker := some p, speaker_content := w.fs p }
      else { text := text, speaker := none, speaker_content := none }
    | none => { text := text, speaker := none, speaker_content := none }
  match tts call w.fs with
  | (some e, fs1) =>
    ({ success := false, error := some (SynthError.raised e),
       output_path := none, file_size := none, audio_quality := none },
     { fs := fs1, calls := w.calls ++ [call] })
  | (none, fs1) =>
    match fs1 output_path with
    | some content =>
      ({ success := true, error := none, output_path := some output_path,
         file_size := some content.length, audio_quality := none },
       { fs := fs1, calls := w.calls ++ [call] })
    | none =>
      ({ success := false, error := some SynthError.outputNotCreated,
         output_path := none, file_size := none, audio_quality := none },
       { fs := fs1, calls := w.calls ++ [call] })

/-- tts_engine.py lines 121 to 182, clone_voice: load the reference
(librosa raises for a missing file, caught by the except block),
validate it at the 5 second bar without acting on the outcome,
preprocess it, save it to the temporary path obtained by replacing
".wav" with "_processed.wav" in the reference path, synthesize with the
temporary file as the speaker reference, remove the temporary file if
it exists, and attach the validation report on success. -/
def clone_voice (sr : Nat) (dsp : DSP) (tts : TTSModel) (w : World)
    (text reference_audio output_path : Str) : SynthResult × World :=
  match w.fs reference_audio with
  | none =>
    ({ success := false, error := some SynthError.loadFailed,
       output_path := none, file_size := none, audio_quality := none }, w)
  | some audio =>
    let validation := validate_audio_quality sr audio 5
    let processed := preprocess_for_tts dsp audio
    let temp_path := pyReplace reference_audio wavCodes processedWavCodes
    let w1 : World :=
      { w with fs := writeFile w.fs temp_path (normalize_audio processed (-20)) }
    let resw := synthesize_speech tts w1 text output_path (some temp_path)
    let w3 : World :=
      { resw.2 with fs := if (resw.2.fs temp_path).isSome then
          removeFile resw.2.fs temp_path else resw.2.fs }
    let result2 := if resw.1.success then
        { resw.1 with audio_quality := some validation }
      else resw.1
    (result2, w3)

end

section ValidationLemmas

theorem validate_duration_eq (sr : Nat) (audio : Wave) (m : ℝ) :
    (validate_audio_quality sr audio m).duration = (audio.length : ℝ) / (sr : ℝ) := by
  simp only [validate_audio_quality]
  split_ifs <;> rfl

theorem validate_rms_eq (sr : Nat) (audio : Wave) (m : ℝ) :
    (validate_audio_quality sr audio m).rms = rmsOf audio := by
  simp only [validate_audio_quality]
  split_ifs <;> rfl

theorem validate_peak_eq (sr : Nat) (audio : Wave) (m : ℝ) :
    (validate_audio_quality sr audio m).peak = peakOf audio := by
  simp only [validate_audio_quality]
  split_ifs <;> rfl

theorem validate_snr_eq (sr : Nat) (audio : Wave) (m : ℝ) :
    (validate_audio_quality sr audio m).snr_db = snrOf sr audio := by
  simp only [validate_audio_quality]
  split_ifs <;> rfl

theorem validate_is_valid_false_iff (sr : Nat) (audio : Wave) (m : ℝ) :
    ((validate_audio_quality sr audio m).is_valid = false) ↔
      ((audio.length : ℝ) / (sr : ℝ) < m ∨ rmsOf audio < 1 / 100) := by
  simp only [validate_audio_quality]
  split_ifs <;> simp_all

theorem validate_clipping_mem_iff (sr : Nat) (audio : Wave) (m : ℝ) :
    (Issue.clipping ∈ (validate_audio_quality sr audio m).issues) ↔
      peakOf audio > 99 / 100 := by
  simp only [validate_audio_quality]
  split_ifs <;> simp_all

theorem validate_lowSnr_mem_iff (sr : Nat) (audio : Wave) (m : ℝ) :
    (Issue.lowSnr ∈ (validate_audio_quality sr audio m).issues) ↔
      snrOf sr audio < 10 := by
  simp only [validate_audio_quality]
  split_ifs <;> simp_all

end ValidationLemmas

section RegistryLemmas

/-- Shared helper: on a failed validation, create_voice_model returns
the failure dict with the issues list and leaves the registry state
untouched. -/
theorem create_voice_model_invalid (sr : Nat) (dsp : DSP) (models_dir : Str)
    (st : RegState) (audio : Wave) (model_name description : Str)
    (now : DateTime) (now_iso : Str)
    (hinv : (validate_audio_quality sr audio 10).is_valid = false) :
    create_voice_model sr dsp models_dir st audio model_name description now now_iso =
      ({ success := false,
         error := some (RegError.validationFailed
           (validate_audio_quality sr audio 10).issues),
         model_id := none, model_info := none }, st) := by
  simp only [create_voice_model, hinv]
  rfl

end RegistryLemmas

section EngineLemmas

/-- Removing a path if it exists leaves nothing at that path. -/
theorem removeIf_none (fs : FS) (p : Str) :
    (if (fs p).isSome then removeFile fs p else fs) p = none := by
  by_cases hx : (fs p).isSome
  · rw [if_pos hx]
    simp [removeFile]
  · rw [if_neg hx]
    exact Option.not_isSome_iff_eq_none.mp hx

/-- Shared helper: whenever the reference loads, the temporary
processed-reference path holds no file when clone_voice returns,
whatever the opaque model did. -/
theorem clone_voice_temp_none (sr : Nat) (dsp : DSP) (tts : TTSModel)
    (w : World) (text ref out : Str) (h : (w.fs ref).isSome = true) :
    ((clone_voice sr dsp tts w text ref out).2).fs
      (pyReplace ref wavCodes processedWavCodes) = none := by
  obtain ⟨audio, ha⟩ := Option.isSome_iff_exists.mp h
  simp only [clone_voice]
  rw [ha]
  exact removeIf_none _ _

/-- Shared helper: whenever the reference loads and its path is
nonempty, clone_voice performs exactly one model invocation, in cloning
mode, with the temporary path as the speaker reference, whose content is
the preprocessed reference as written by save_audio. -/
theorem clone_voice_trace (sr : Nat) (dsp : DSP) (tts : TTSModel)
    (w : World) (text ref out : Str) (audio : Wave)
    (ha : w.fs ref = some audio) (href : ref ≠ []) :
    ((clone_voice sr dsp tts w text ref out).2).calls =
      w.calls ++ [{ text := text,
                    speaker := some (pyReplace ref wavCodes processedWavCodes),
                    speaker_content :=
                      some (normalize_audio (preprocess_for_tts dsp audio) (-20)) }] := by
  have htemp : pyReplace ref wavCodes processedWavCodes ≠ [] :=
    pyReplace_ne_nil ref wavCodes processedWavCodes href (by simp [processedWavCodes])
  simp only [clone_voice]
  rw [ha]
  simp only [synthesize_speech, writeFile]
  rw [if_pos]
  · split
    · simp
    · split <;> simp
  · refine ⟨htemp, ?_⟩
    simp

end EngineLemmas

section PeakLemmas

theorem peakOf_nil : peakOf [] = 0 := by
  simp [peakOf]

theorem peakOf_cons (x : ℝ) (t : Wave) : peakOf (x :: t) = max |x| (peakOf t) := by
  simp [peakOf]

theorem peakOf_nonneg (l : Wave) : 0 ≤ peakOf l := by
  induction l with
  | nil => simp [peakOf_nil]
  | cons x t ih =>
    rw [peakOf_cons]
    exact le_trans ih (le_max_right _ _)

theorem peakOf_scale (l : Wave) (a : ℝ) :
    peakOf (l.map (fun x => x * a)) = peakOf l * |a| := by
  induction l with
  | nil => simp [peakOf_nil]
  | cons x t ih =>
    rw [List.map_cons, peakOf_cons, peakOf_cons, ih, abs_mul,
      max_mul_of_nonneg _ _ (abs_nonneg a)]

theorem peakOf_replicate_zero (n : Nat) : peakOf (List.replicate n (0 : ℝ)) = 0 := by
  induction n with
  | zero => simp [peakOf_nil]
  | succ k ih => rw [List.replicate_succ, peakOf_cons, ih]; simp

end PeakLemmas

section WitnessData

/-- Identity transforms standing in for the library signal-processing
calls in concrete evaluations. -/
def dsp0 : DSP :=
  { trim_silence := fun a => a, highpass := fun a => a, reduce_noise := fun a => a }

/-- An empty registry. -/
def st0 : RegState := { memModels := [], diskModels := [], dirs := [], files := [] }

/-- A three-second clip at the configured 22050 Hz rate: 66150 constant
full-scale samples. -/
noncomputable def clip3s : Wave := List.replicate 66150 1

/-- A concrete creation instant. -/
def dt0 : DateTime :=
  { year := 2024, month := 1, day := 1, hour := 12, minute := 0, second := 0 }

/-- One second later. -/
def dt1 : DateTime :=
  { year := 2024, month := 1, day := 1, hour := 12, minute := 0, second := 1 }

/-- The code points of "m1", a model id. -/
def mid0 : Str := [109, 49]

/-- A stored custom model record. -/
noncomputable def m0 : ModelInfo :=
  { id := mid0, name := [77], description := [], created_at := [99],
    updated_at := none, reference_audio := some [114],
    duration := some 12, snr_db := some 15, rms := some (1 / 10),
    model_type := customCodes }

/-- A registry holding exactly the model m0 under id mid0, mirrored to
disk. -/
noncomputable def st1 : RegState :=
  { memModels := [(mid0, m0)], diskModels := [(mid0, m0)], dirs := [], files := [] }

end WitnessData

/-- C2: for every input whose quality validation with min duration 10
reports invalid, create_voice_model returns the validation-failure
result carrying the issues list and leaves the registry state unchanged:
no directory is created, no reference file is written, and no metadata
entry is added or persisted (the returned state is the input state). -/
theorem C2_create_rejects_invalid (sr : Nat) (dsp : DSP) (models_dir : Str)
    (st : RegState) (audio : Wave) (model_name description : Str)
    (now : DateTime) (now_iso : Str)
    (hinv : (validate_audio_quality sr audio 10).is_valid = false) :
    create_voice_model sr dsp models_dir st audio model_name description now now_iso =
      ({ success := false,
         error := some (RegError.validationFailed
           (validate_audio_quality sr audio 10).issues),
         model_id := none, model_info := none }, st) :=
  create_voice_model_invalid sr dsp models_dir st audio model_name description
    now now_iso hinv

/-- Witness for C2: a three-second clip fails validation at the
ten-second bar and create_voice_model rejects it without touching the
empty registry. -/
theorem C2_create_rejects_invalid_witness :
    (validate_audio_quality 22050 clip3s 10).is_valid = false ∧
    create_voice_model 22050 dsp0 [109] st0 clip3s [97] [] dt0 [] =
      ({ success := false,
         error := some (RegError.validationFailed
           (validate_audio_quality 22050 clip3s 10).issues),
         model_id := none, model_info := none }, st0) := by
  have hinv : (validate_audio_quality 22050 clip3s 10).is_valid = false := by
    rw [validate_is_valid_false_iff]
    left
    simp only [clip3s, List.length_replicate]
    norm_num
  exact ⟨hinv, C2_create_rejects_invalid 22050 dsp0 [109] st0 clip3s [97] [] dt0 [] hinv⟩

/-- C3: validate_audio_quality reports is_valid = false exactly when the
duration is below the minimum or the RMS is below 0.01, and the
clipping and low-SNR checks only append their issues (clipping is
reported exactly when peak exceeds 0.99, the noisy issue exactly when
the SNR estimate is below 10 dB, and neither affects is_valid). -/
theorem C3_validate_exactly (sr : Nat) (audio : Wave) (min_duration : ℝ) :
    ((validate_audio_quality sr audio min_duration).is_valid = false ↔
      ((validate_audio_quality sr audio min_duration).duration < min_duration ∨
        (validate_audio_quality sr audio min_duration).rms < 1 / 100))
    ∧ ((Issue.clipping ∈ (validate_audio_quality sr audio min_duration).issues) ↔
        (validate_audio_quality sr audio min_duration).peak > 99 / 100)
    ∧ ((Issue.lowSnr ∈ (validate_audio_quality sr audio min_duration).issues) ↔
        (validate_audio_quality sr audio min_duration).snr_db < 10) := by
  rw [validate_duration_eq, validate_rms_eq, validate_peak_eq, validate_snr_eq]
  exact ⟨validate_is_valid_false_iff sr audio min_duration,
    validate_clipping_mem_iff sr audio min_duration,
    validate_lowSnr_mem_iff sr audio min_duration⟩

/-- C8: for an existing model id, update_model_info with only the
description supplied changes exactly the description and updated_at
fields of the stored record, persists the metadata (the disk copy
equals the new memory copy, itself the old map with that one entry
replaced), returns the updated record, and leaves every other entry
unchanged. -/
theorem C8_update_only_description (st : RegState) (model_id d now_iso : Str)
    (m : ModelInfo) (h : lookupModel st.memModels model_id = some m) :
    update_model_info st model_id none (some d) now_iso =
      ({ success := true, error := none,
         model_info := some { m with description := d, updated_at := some now_iso } },
       { st with
          memModels := insertModel st.memModels model_id
            { m with description := d, updated_at := some now_iso },
          diskModels := insertModel st.memModels model_id
            { m with description := d, updated_at := some now_iso } })
    ∧ lookupModel (update_model_info st model_id none (some d) now_iso).2.memModels
        model_id = some { m with description := d, updated_at := some now_iso }
    ∧ (∀ j, j ≠ model_id →
        lookupModel (update_model_info st model_id none (some d) now_iso).2.memModels j =
          lookupModel st.memModels j) := by
  have heq : update_model_info st model_id none (some d) now_iso =
      ({ success := true, error := none,
         model_info := some { m with description := d, updated_at := some now_iso } },
       { st with
          memModels := insertModel st.memModels model_id
            { m with description := d, updated_at := some now_iso },
          diskModels := insertModel st.memModels model_id
            { m with description := d, updated_at := some now_iso } }) := by
    simp only [update_model_info]
    rw [h]
  refine ⟨heq, ?_, ?_⟩
  · rw [heq]
    exact lookupModel_insertModel_self _ _ _
  · intro j hj
    rw [heq]
    exact lookupModel_insertModel_ne _ _ _ _ hj

/-- Witness for C8: updating only the description of the stored model m0
leaves its name untouched, stamps updated_at and persists. -/
theorem C8_update_only_description_witness :
    lookupModel st1.memModels mid0 = some m0 ∧
    (update_model_info st1 mid0 none (some [100]) [116] =
      ({ success := true, error := none,
         model_info := some { m0 with description := [100], updated_at := some [116] } },
       { st1 with
          memModels := insertModel st1.memModels mid0
            { m0 with description := [100], updated_at := some [116] },
          diskModels := insertModel st1.memModels mid0
            { m0 with description := [100], updated_at := some [116] } })
    ∧ lookupModel (update_model_info st1 mid0 none (some [100]) [116]).2.memModels
        mid0 = some { m0 with description := [100], updated_at := some [116] }
    ∧ (∀ j, j ≠ mid0 →
        lookupModel (update_model_info st1 mid0 none (some [100]) [116]).2.memModels j =
          lookupModel st1.memModels j)) := by
  have h : lookupModel st1.memModels mid0 = some m0 := by
    simp [st1, lookupModel]
  exact ⟨h, C8_update_only_description st1 mid0 [100] [116] m0 h⟩

/-- C10: update_model_info treats its two optional fields
asymmetrically: an empty-string name is ignored (Python truthiness), so
the stored name is unchanged, while an empty-string description is
applied; in both cases updated_at is stamped and the metadata is
persisted. -/
theorem C10_update_empty_asymmetry (st : RegState) (model_id now_iso : Str)
    (m : ModelInfo) (h : lookupModel st.memModels model_id = some m) :
    update_model_info st model_id (some []) none now_iso =
      ({ success := true, error := none,
         model_info := some { m with updated_at := some now_iso } },
       { st with
          memModels := insertModel st.memModels model_id
            { m with updated_at := some now_iso },
          diskModels := insertModel st.memModels model_id
            { m with updated_at := some now_iso } })
    ∧ update_model_info st model_id none (some []) now_iso =
      ({ success := true, error := none,
         model_info := some { m with description := [], updated_at := some now_iso } },
       { st with
          memModels := insertModel st.memModels model_id
            { m with description := [], updated_at := some now_iso },
          diskModels := insertModel st.memModels model_id
            { m with description := [], updated_at := some now_iso } }) := by
  constructor
  · simp only [update_model_info]
    rw [h]
    simp
  · simp only [update_model_info]
    rw [h]

/-- Witness for C10: on the stored model m0, an empty name is ignored
while an empty description is applied. -/
theorem C10_update_empty_asymmetry_witness :
    lookupModel st1.memModels mid0 = some m0 ∧
    (update_model_info st1 mid0 (some []) none [116] =
      ({ success := true, error := none,
         model_info := some { m0 with updated_at := some [116] } },
       { st1 with
          memModels := insertModel st1.memModels mid0 { m0 with updated_at := some [116] },
          diskModels := insertModel st1.memModels mid0 { m0 with updated_at := some [116] } })
    ∧ update_model_info st1 mid0 none (some []) [116] =
      ({ success := true, error := none,
         model_info := some { m0 with description := [], updated_at := some [116] } },
       { st1 with
          memModels := insertModel st1.memModels mid0
            { m0 with description := [], updated_at := some [116] },
          diskModels := insertModel st1.memModels mid0
            { m0 with description := [], updated_at := some [116] } })) := by
  have h : lookupModel st1.memModels mid0 = some m0 := by
    simp [st1, lookupModel]
  exact ⟨h, C10_update_empty_asymmetry st1 mid0 [116] m0 h⟩

section EngineWitnessData

/-- The code points of "ref.wav". -/
def refWavPath : Str := [114, 101, 102, 46, 119, 97, 118]

/-- The code points of "ref.mp3". -/
def refMp3Path : Str := [114, 101, 102, 46, 109, 112, 51]

/-- The code points of "out.wav". -/
def outPath : Str := [111, 117, 116, 46, 119, 97, 118]

/-- A filesystem holding exactly one one-sample file at ref.wav. -/
noncomputable def fsRefOnly : FS := fun p => if p = refWavPath then some [1] else none

/-- An engine world over fsRefOnly with an empty invocation trace. -/
noncomputable def w0 : World := { fs := fsRefOnly, calls := [] }

/-- A filesystem holding exactly one one-sample file at ref.mp3. -/
noncomputable def fsMp3 : FS := fun p => if p = refMp3Path then some [1] else none

/-- An engine world over fsMp3 with an empty invocation trace. -/
noncomputable def wMp3 : World := { fs := fsMp3, calls := [] }

/-- A fault-injected model stub that always raises. -/
def ttsBoom : TTSModel := fun _ fs => (some [98], fs)

/-- A model stub that returns normally without writing any file. -/
def ttsNoop : TTSModel := fun _ fs => (none, fs)

end EngineWitnessData

/-- C1: whenever the reference file loads (the precondition of all three
exit paths of clone_voice that create the temporary file), the temporary
processed-reference path holds no file when the call returns, whatever
the opaque model does: synthesis success, synthesis failure reported by
the model, or an exception raised by the model invocation (which
synthesize_speech catches and turns into a failure dict, after which
clone_voice still runs its cleanup). -/
theorem C1_clone_voice_deletes_temp (sr : Nat) (dsp : DSP) (tts : TTSModel)
    (w : World) (text ref out : Str) (h : (w.fs ref).isSome = true) :
    ((clone_voice sr dsp tts w text ref out).2).fs
      (pyReplace ref wavCodes processedWavCodes) = none :=
  clone_voice_temp_none sr dsp tts w text ref out h

/-- Witness for C1, with the fault-injected always-raising model stub:
the temporary file is gone when clone_voice returns. -/
theorem C1_clone_voice_deletes_temp_witness :
    (w0.fs refWavPath).isSome = true ∧
    ((clone_voice 22050 dsp0 ttsBoom w0 [104] refWavPath outPath).2).fs
      (pyReplace refWavPath wavCodes processedWavCodes) = none := by
  have h : (w0.fs refWavPath).isSome = true := by
    simp [w0, fsRefOnly]
  exact ⟨h, C1_clone_voice_deletes_temp 22050 dsp0 ttsBoom w0 [104] refWavPath outPath h⟩

/-- C5: clone_voice validates the reference at the five-second bar, and
a failed validation never blocks synthesis: for every reference whose
validation at 5.0 reports invalid, the call still preprocesses the
reference and performs the model invocation (with the processed
temporary file as the speaker reference), while create_voice_model on
the same audio rejects it and leaves the registry unchanged. -/
theorem C5_invalid_reference_not_blocking (sr : Nat) (dsp : DSP) (tts : TTSModel)
    (w : World) (text ref out : Str) (audio : Wave) (models_dir : Str)
    (st : RegState) (model_name description : Str) (now : DateTime) (now_iso : Str)
    (ha : w.fs ref = some audio) (href : ref ≠ [])
    (hinv : (validate_audio_quality sr audio 5).is_valid = false) :
    ((clone_voice sr dsp tts w text ref out).2).calls =
      w.calls ++ [{ text := text,
                    speaker := some (pyReplace ref wavCodes processedWavCodes),
                    speaker_content :=
                      some (normalize_audio (preprocess_for_tts dsp audio) (-20)) }]
    ∧ (create_voice_model sr dsp models_dir st audio model_name description
        now now_iso).1.success = false
    ∧ (create_voice_model sr dsp models_dir st audio model_name description
        now now_iso).2 = st := by
  have h10 : (validate_audio_quality sr audio 10).is_valid = false := by
    rw [validate_is_valid_false_iff]
    rcases (validate_is_valid_false_iff sr audio 5).mp hinv with hd | hr
    · exact Or.inl (lt_trans hd (by norm_num))
    · exact Or.inr hr
  have hc := create_voice_model_invalid sr dsp models_dir st audio model_name
    description now now_iso h10
  exact ⟨clone_voice_trace sr dsp tts w text ref out audio ha href,
    by rw [hc], by rw [hc]⟩

/-- Witness for C5: a one-sample reference fails validation at the
five-second bar, yet clone_voice records exactly one model invocation
with the processed temporary file, while create_voice_model rejects the
same audio. -/
theorem C5_invalid_reference_not_blocking_witness :
    w0.fs refWavPath = some [1] ∧ refWavPath ≠ [] ∧
    (validate_audio_quality 22050 [1] 5).is_valid = false ∧
    (((clone_voice 22050 dsp0 ttsNoop w0 [104] refWavPath outPath).2).calls =
      w0.calls ++ [{ text := [104],
                     speaker := some (pyReplace refWavPath wavCodes processedWavCodes),
                     speaker_content :=
                       some (normalize_audio (preprocess_for_tts dsp0 [1]) (-20)) }]
    ∧ (create_voice_model 22050 dsp0 [109] st0 [1] [97] [] dt0 []).1.success = false
    ∧ (create_voice_model 22050 dsp0 [109] st0 [1] [97] [] dt0 []).2 = st0) := by
  have ha : w0.fs refWavPath = some [1] := by
    simp [w0, fsRefOnly]
  have href : refWavPath ≠ [] := by
    simp [refWavPath]
  have hinv : (validate_audio_quality 22050 [1] 5).is_valid = false := by
    rw [validate_is_valid_false_iff]
    left
    norm_num
  exact ⟨ha, href, hinv,
    C5_invalid_reference_not_blocking 22050 dsp0 ttsNoop w0 [104] refWavPath outPath
      [1] [109] st0 [97] [] dt0 [] ha href hinv⟩

/-- C9: when the reference path does not contain ".wav", the temporary
path equals the reference path itself, so the processed audio overwrites
the original reference file (the recorded invocation uses the reference
path with the processed content) and the cleanup then deletes it: the
reference file does not survive the call. -/
theorem C9_no_wav_reference_destroyed (sr : Nat) (dsp : DSP) (tts : TTSModel)
    (w : World) (text ref out : Str) (audio : Wave)
    (ha : w.fs ref = some audio) (href : ref ≠ [])
    (hnw : containsSub ref wavCodes = false) :
    pyReplace ref wavCodes processedWavCodes = ref
    ∧ ((clone_voice sr dsp tts w text ref out).2).fs ref = none
    ∧ ((clone_voice sr dsp tts w text ref out).2).calls =
        w.calls ++ [{ text := text, speaker := some ref,
                      speaker_content :=
                        some (normalize_audio (preprocess_for_tts dsp audio) (-20)) }] := by
  have hid := pyReplace_of_not_contains ref wavCodes processedWavCodes hnw
  have hnone := clone_voice_temp_none sr dsp tts w text ref out (by rw [ha]; rfl)
  rw [hid] at hnone
  have htr := clone_voice_trace sr dsp tts w text ref out audio ha href
  rw [hid] at htr
  exact ⟨hid, hnone, htr⟩

/-- Witness for C9: on the reference ref.mp3 (no ".wav" substring) the
temporary path is the reference path and the reference file is gone when
clone_voice returns. -/
theorem C9_no_wav_reference_destroyed_witness :
    wMp3.fs refMp3Path = some [1] ∧ refMp3Path ≠ [] ∧
    containsSub refMp3Path wavCodes = false ∧
    (pyReplace refMp3Path wavCodes processedWavCodes = refMp3Path
    ∧ ((clone_voice 22050 dsp0 ttsNoop wMp3 [104] refMp3Path outPath).2).fs
        refMp3Path = none
    ∧ ((clone_voice 22050 dsp0 ttsNoop wMp3 [104] refMp3Path outPath).2).calls =
        wMp3.calls ++ [{ text := [104], speaker := some refMp3Path,
                         speaker_content :=
                           some (normalize_audio (preprocess_for_tts dsp0 [1]) (-20)) }]) := by
  have ha : wMp3.fs refMp3Path = some [1] := by
    simp [wMp3, fsMp3]
  exact ⟨ha, by decide, by decide,
    C9_no_wav_reference_destroyed 22050 dsp0 ttsNoop wMp3 [104] refMp3Path outPath
      [1] ha (by decide) (by decide)⟩

/-- C7: a waveform whose RMS is exactly zero (in particular any all-zero
waveform) is returned unchanged by normalize_audio, so the scaling
division is never reached. -/
theorem C7_normalize_silent (audio : Wave) (target_level : ℝ)
    (h : rmsOf audio = 0) :
    normalize_audio audio target_level = audio := by
  simp only [normalize_audio]
  rw [if_pos h]

/-- Witness for C7: the all-zero two-sample waveform has RMS zero and is
returned unchanged. -/
theorem C7_normalize_silent_witness :
    rmsOf [0, 0] = 0 ∧ normalize_audio [0, 0] (-20) = [0, 0] := by
  have h : rmsOf ([0, 0] : Wave) = 0 := by
    simp [rmsOf]
  exact ⟨h, C7_normalize_silent [0, 0] (-20) h⟩

/-- C6: for every waveform with nonzero RMS, the output of
normalize_audio has peak amplitude at most 1; and whenever the
RMS-scaled signal has peak above 1, the output is rescaled so that its
peak equals exactly 0.99. -/
theorem C6_normalize_no_clipping (audio : Wave) (target_level : ℝ)
    (h : rmsOf audio ≠ 0) :
    peakOf (normalize_audio audio target_level) ≤ 1
    ∧ (peakOf (audio.map (fun x => x * (targetRms target_level / rmsOf audio))) > 1 →
        peakOf (normalize_audio audio target_level) = 99 / 100) := by
  simp only [normalize_audio]
  rw [if_neg h]
  by_cases hgt :
      peakOf (audio.map (fun x => x * (targetRms target_level / rmsOf audio))) > 1
  · rw [if_pos hgt]
    have hpos : (0 : ℝ) <
        peakOf (audio.map (fun x => x * (targetRms target_level / rmsOf audio))) :=
      lt_trans one_pos hgt
    have hfun : (fun x : ℝ => x /
          peakOf (audio.map (fun y => y * (targetRms target_level / rmsOf audio))) *
          (99 / 100)) =
        fun x : ℝ => x * ((99 / 100) /
          peakOf (audio.map (fun y => y * (targetRms target_level / rmsOf audio)))) := by
      funext x
      ring
    have hpeak :
        peakOf ((audio.map (fun x => x * (targetRms target_level / rmsOf audio))).map
          (fun x => x /
            peakOf (audio.map (fun y => y * (targetRms target_level / rmsOf audio))) *
            (99 / 100))) = 99 / 100 := by
      rw [hfun, peakOf_scale, abs_of_pos (div_pos (by norm_num) hpos), mul_comm,
        div_mul_cancel₀ _ (ne_of_gt hpos)]
    exact ⟨by rw [hpeak]; norm_num, fun _ => hpeak⟩
  · rw [if_neg hgt]
    exact ⟨not_lt.mp hgt, fun hc => absurd hc hgt⟩

/-- A spiky 400-sample waveform: one full-scale sample then silence; its
RMS is 1/20, so the RMS scaling (factor 2) pushes the peak above 1. -/
noncomputable def witAudio6 : Wave := 1 :: List.replicate 399 0

theorem rms_witAudio6 : rmsOf witAudio6 = 1 / 20 := by
  have h1 : ((witAudio6.map (fun x => x ^ 2)).sum / (witAudio6.length : ℝ)) = 1 / 400 := by
    simp only [witAudio6, List.map_cons, List.map_replicate, List.sum_cons,
      List.sum_replicate, List.length_cons, List.length_replicate]
    norm_num
  rw [rmsOf, h1, show (1 / 400 : ℝ) = (1 / 20) ^ 2 by norm_num,
    Real.sqrt_sq (by norm_num : (0 : ℝ) ≤ 1 / 20)]

theorem targetRms_neg20 : targetRms (-20) = 1 / 10 := by
  rw [targetRms, show ((-20 : ℝ) / 20) = ((-1 : ℤ) : ℝ) by norm_num,
    Real.rpow_intCast]
  norm_num

theorem peak_witAudio6 : peakOf witAudio6 = 1 := by
  rw [witAudio6, peakOf_cons, peakOf_replicate_zero]
  simp

theorem peak_scaled_witAudio6 :
    peakOf (witAudio6.map (fun x => x * (targetRms (-20) / rmsOf witAudio6))) = 2 := by
  rw [peakOf_scale, targetRms_neg20, rms_witAudio6, peak_witAudio6]
  norm_num

/-- Witness for C6: on the spiky waveform the scaled peak is 2, above 1,
and the output peak is exactly 0.99 (hence at most 1). -/
theorem C6_normalize_no_clipping_witness :
    rmsOf witAudio6 ≠ 0 ∧
    peakOf (normalize_audio witAudio6 (-20)) ≤ 1 ∧
    peakOf (witAudio6.map (fun x => x * (targetRms (-20) / rmsOf witAudio6))) > 1 ∧
    peakOf (normalize_audio witAudio6 (-20)) = 99 / 100 := by
  have h : rmsOf witAudio6 ≠ 0 := by
    rw [rms_witAudio6]
    norm_num
  have hgt : peakOf (witAudio6.map (fun x => x * (targetRms (-20) / rmsOf witAudio6))) > 1 := by
    rw [peak_scaled_witAudio6]
    norm_num
  exact ⟨h, (C6_normalize_no_clipping witAudio6 (-20) h).1, hgt,
    (C6_normalize_no_clipping witAudio6 (-20) h).2 hgt⟩

/-- The YYYYMMDD_HHMMSS format determines a valid datetime uniquely. -/
theorem formatTimestamp_inj (t1 t2 : DateTime) (h1 : ValidDT t1) (h2 : ValidDT t2)
    (heq : formatTimestamp t1 = formatTimestamp t2) : t1 = t2 := by
  obtain ⟨hy1, hmo1, hd1, hh1, hmi1, hs1⟩ := h1
  obtain ⟨hy2, hmo2, hd2, hh2, hmi2, hs2⟩ := h2
  obtain ⟨y1, mo1, d1, hr1, mi1, s1⟩ := t1
  obtain ⟨y2, mo2, d2, hr2, mi2, s2⟩ := t2
  simp only [formatTimestamp, pad4, pad2, digitCode, List.cons_append,
    List.nil_append, List.cons.injEq, and_true] at heq
  simp only [DateTime.mk.injEq]
  simp only at hy1 hmo1 hd1 hh1 hmi1 hs1 hy2 hmo2 hd2 hh2 hmi2 hs2
  omega

/-- The counterexample to C4 as stated: the model name consisting of the
single code point 233 (Latin small letter e with acute) is classified
alphanumeric by Python str.isalnum and is its own lowercase form, so it
survives sanitization unchanged, and the generated id contains a
character outside [a-z0-9_]. -/
theorem C4_counterexample :
    clean_name [233] = [233] ∧ isIdChar 233 = false ∧
    (generate_model_id [233]
      { year := 2024, month := 1, day := 1, hour := 12, minute := 0, second := 0 }).all
      isIdChar = false := by
  decide

/-- C4 amended: the generated id is always the sanitized name (Python
lowercasing, then every character that is not alphanumeric in the
Unicode sense of str.isalnum replaced by an underscore) followed by an
underscore and the YYYYMMDD_HHMMSS timestamp; when the name consists of
ASCII characters the sanitized prefix consists only of characters in
[a-z0-9_]; and two creations with the same name at different valid
instants yield ids sharing the prefix and differing in the timestamp
suffix. -/
theorem C4_model_id_amended (model_name : Str) (t1 t2 : DateTime) :
    generate_model_id model_name t1 =
      clean_name model_name ++ [95] ++ formatTimestamp t1
    ∧ generate_model_id model_name t2 =
      clean_name model_name ++ [95] ++ formatTimestamp t2
    ∧ ((∀ c ∈ model_name, c < 128) → (clean_name model_name).all isIdChar = true)
    ∧ (ValidDT t1 → ValidDT t2 → t1 ≠ t2 →
        generate_model_id model_name t1 ≠ generate_model_id model_name t2) := by
  refine ⟨rfl, rfl, ?_, ?_⟩
  · intro hascii
    have key : ∀ c : Nat, c < 128 →
        isIdChar (if pyIsAlnum (pyLower c) then pyLower c else 95) = true := by
      decide
    simp only [clean_name, List.map_map, List.all_map, List.all_eq_true,
      Function.comp]
    intro c hc
    exact key c (hascii c hc)
  · intro hv1 hv2 hne heqid
    apply hne
    apply formatTimestamp_inj t1 t2 hv1 hv2
    simp only [generate_model_id, List.append_assoc] at heqid
    have h2 := List.append_cancel_left heqid
    simpa using h2

/-- The code points of the name "My Voice!". -/
def myVoice : Str := [77, 121, 32, 86, 111, 105, 99, 101, 33]

/-- Witness for the amended C4 at the ASCII name "My Voice!" and two
instants one second apart: both ids are the common sanitized prefix plus
their timestamps, the prefix is within [a-z0-9_], and the ids differ. -/
theorem C4_model_id_amended_witness :
    (generate_model_id myVoice dt0 =
      clean_name myVoice ++ [95] ++ formatTimestamp dt0)
    ∧ (generate_model_id myVoice dt1 =
      clean_name myVoice ++ [95] ++ formatTimestamp dt1)
    ∧ (∀ c ∈ myVoice, c < 128)
    ∧ (clean_name myVoice).all isIdChar = true
    ∧ ValidDT dt0 ∧ ValidDT dt1 ∧ dt0 ≠ dt1
    ∧ generate_model_id myVoice dt0 ≠ generate_model_id myVoice dt1 := by
  have hascii : ∀ c ∈ myVoice, c < 128 := by decide
  have h := C4_model_id_amended myVoice dt0 dt1
  exact ⟨h.1, h.2.1, hascii, h.2.2.1 hascii, by decide, by decide, by decide,
    h.2.2.2 (by decide) (by decide) (by decide)⟩
